import Mathlib

/-!
Verification of the job-execution and artifact-serving subsystem of the
Temoa GUI (src/temoainterface/app.py), shallowly embedded in Lean.

The embedding models the process-wide state the worker mutates
(sys.stdout, sys.stderr, the root logger's handler list, named logger
levels), the two server objects (StaticFileServer, DatasetteServer),
and the observable event traces of the worker function
(_execute_temoa_logic), the completion callback (_on_run_complete),
the datasette launcher (_launch_datasette), the run trigger
(run_model) and the port allocator (find_free_port).
-/

/-- Destination of a process-wide stream (sys.stdout or sys.stderr):
either some pre-existing stream object, or a StreamRedirector carrying
the line tag it prepends ("" for stdout, "[STDERR] " for stderr). -/
inductive StreamDest where
  | original (which : String)
  | redirector (tag : String)
deriving DecidableEq, Repr

/-- A handler attached to the root logger: the GUI handler installed by
the worker (a fresh TogaLogHandler object each run) or any other
pre-existing handler. -/
inductive HandlerId where
  | gui
  | other (n : Nat)
deriving DecidableEq, Repr

/-- Python logging levels used by the program. -/
inductive LogLevel where
  | notset
  | debug
  | info
  | warning
  | error
deriving DecidableEq, Repr

/-- The process-wide stream and logging state that _execute_temoa_logic
reads and mutates: sys.stdout, sys.stderr, the root logger's handler
list, and the levels of the temoa, pyomo and matplotlib loggers. -/
structure ProcState where
  stdout : StreamDest
  stderr : StreamDest
  rootHandlers : List HandlerId
  temoaLevel : LogLevel
  pyomoLevel : LogLevel
  matplotlibLevel : LogLevel
deriving DecidableEq, Repr

/-- logging.Logger.addHandler: appends the handler unless already present. -/
def addHandler (hs : List HandlerId) (h : HandlerId) : List HandlerId :=
  if h ∈ hs then hs else hs ++ [h]

/-- logging.Logger.removeHandler: removes the first occurrence when present. -/
def removeHandler (hs : List HandlerId) (h : HandlerId) : List HandlerId :=
  if h ∈ hs then hs.erase h else hs

/-- Observable events of one execution of _execute_temoa_logic, in
program order.  scheduleLog and scheduleRunComplete are the
loop.call_soon_threadsafe hand-offs onto the interactive context. -/
inductive RunEvent where
  | redirectStreams
  | addGuiHandler
  | mkdirOutput (dir : String)
  | scheduleLog (text : String)
  | writeRunConfig (path : String)
  | buildConfigCall (configFile : String)
  | sequencerStartCall
  | restoreStreams
  | removeGuiHandler
  | scheduleRunComplete (success : Bool) (outputPath : Option String)
deriving DecidableEq, Repr

/-- Outcome of the fallible steps inside the try block of
_execute_temoa_logic: normal completion, or an exception raised at one
of the four fallible call sites.  `logs` are the log lines the
computation itself pushes through the redirected streams and the GUI
log handler while it runs; `tb` is the formatted traceback text. -/
inductive CompOutcome where
  | ok (logs : List String)
  | raiseMkdir (tb : String)
  | raiseWriteConfig (tb : String)
  | raiseBuildConfig (tb : String)
  | raiseSequencer (logs : List String) (tb : String)
deriving DecidableEq, Repr

/-- Result of one execution of the worker body: the final process-wide
state, the full event trace, and the success flag and output path that
are handed to _on_run_complete. -/
structure RunExecution where
  procState : ProcState
  trace : List RunEvent
  success : Bool
  finalOutputPath : Option String
deriving DecidableEq, Repr

/-- Shallow embedding of TemoaGUI._execute_temoa_logic.  `baseParent`
is source_path.parent when a source file is loaded, else Path.cwd();
`timestamp` is the formatted datetime.now().  The try block creates
the timestamp output directory, logs it, writes run_config.toml, logs
that, builds the TemoaConfig from the written file, and runs the
sequencer; the except block logs the traceback; the finally block
restores sys.stdout/sys.stderr, removes the GUI handler, and schedules
_on_run_complete. -/
def executeTemoaLogic (st : ProcState) (baseParent timestamp : String)
    (outcome : CompOutcome) : RunExecution :=
  let installed : ProcState :=
    { stdout := .redirector ""
      stderr := .redirector "[STDERR] "
      rootHandlers := addHandler st.rootHandlers .gui
      temoaLevel := .info
      pyomoLevel := .warning
      matplotlibLevel := .warning }
  let outputDir := baseParent ++ "/output_files/" ++ timestamp
  let runConfigPath := outputDir ++ "/run_config.toml"
  let preamble : List RunEvent :=
    [.mkdirOutput outputDir,
     .scheduleLog ("Output directory: " ++ outputDir ++ "\n")]
  let configured : List RunEvent :=
    preamble ++
    [.writeRunConfig runConfigPath,
     .scheduleLog "Configuration saved to: run_config.toml\n",
     .buildConfigCall runConfigPath]
  let tryPart : List RunEvent × Bool × Option String :=
    match outcome with
    | .raiseMkdir tb =>
        ([.scheduleLog ("\nERROR:\n" ++ tb ++ "\n")], false, none)
    | .raiseWriteConfig tb =>
        (preamble ++ [.scheduleLog ("\nERROR:\n" ++ tb ++ "\n")], false, none)
    | .raiseBuildConfig tb =>
        (configured ++ [.scheduleLog ("\nERROR:\n" ++ tb ++ "\n")], false, none)
    | .raiseSequencer logs tb =>
        (configured ++ [.sequencerStartCall] ++ logs.map RunEvent.scheduleLog
          ++ [.scheduleLog ("\nERROR:\n" ++ tb ++ "\n")], false, none)
    | .ok logs =>
        (configured ++ [.sequencerStartCall] ++ logs.map RunEvent.scheduleLog,
         true, some outputDir)
  let restored : ProcState :=
    { installed with
        stdout := st.stdout
        stderr := st.stderr
        rootHandlers := removeHandler installed.rootHandlers .gui }
  { procState := restored
    trace :=
      [RunEvent.redirectStreams, RunEvent.addGuiHandler] ++ tryPart.1 ++
      [RunEvent.restoreStreams, RunEvent.removeGuiHandler,
       RunEvent.scheduleRunComplete tryPart.2.1 tryPart.2.2]
    success := tryPart.2.1
    finalOutputPath := tryPart.2.2 }

/-- Recognizes the terminal run-completion hand-off in a trace. -/
def isRunComplete : RunEvent → Bool
  | .scheduleRunComplete _ _ => true
  | _ => false

/-- A concrete pre-run process state: plain streams, no handlers, all
logger levels at the Python default NOTSET. -/
def procState0 : ProcState :=
  { stdout := .original "stdout"
    stderr := .original "stderr"
    rootHandlers := []
    temoaLevel := .notset
    pyomoLevel := .notset
    matplotlibLevel := .notset }

theorem removeHandler_addHandler (hs : List HandlerId) (h : HandlerId)
    (hh : h ∉ hs) : removeHandler (addHandler hs h) h = hs := by
  simp only [addHandler, removeHandler, if_neg hh]
  have hmem : h ∈ hs ++ [h] := by simp
  rw [if_pos hmem, List.erase_append_right _ hh, List.erase_cons_head]
  simp

theorem scheduleLog_map_filter (logs : List String) :
    (logs.map RunEvent.scheduleLog).filter isRunComplete = [] := by
  induction logs with
  | nil => rfl
  | cons x xs ih => simp [isRunComplete, ih]

theorem getLast?_cons_append_three {α : Type} (x : α) (l : List α) (a b c : α) :
    (x :: (l ++ [a, b, c])).getLast? = some c := by
  rw [show x :: (l ++ [a, b, c]) = (x :: l) ++ [a, b, c] by simp,
    List.getLast?_append_cons]
  rfl

theorem getLast?_cons_append_four {α : Type} (x : α) (l : List α) (a b c d : α) :
    (x :: (l ++ [a, b, c, d])).getLast? = some d := by
  rw [show x :: (l ++ [a, b, c, d]) = (x :: l) ++ [a, b, c, d] by simp,
    List.getLast?_append_cons]
  rfl

/-- C1 counterexample: starting from default NOTSET logger levels, the
process-wide logging state after a run differs from the state before it
(the temoa logger's level has been set to INFO and is never restored),
so the run does not leave "the process-wide stream and logging state
equal what they were before the run began". -/
theorem C1_counterexample :
    (executeTemoaLogic procState0 "base" "ts" (.ok [])).procState ≠ procState0 := by
  intro h
  have := congrArg ProcState.temoaLevel h
  simp [executeTemoaLogic, procState0] at this

/-- C1 amended: on every path (normal return and every exception path)
the worker restores sys.stdout and sys.stderr to their saved originals
and removes the freshly created GUI handler from the root logger, so
streams and the root handler list equal their pre-run values; the
temoa, pyomo and matplotlib logger levels however are left at
INFO/WARNING/WARNING rather than restored. -/
theorem C1_worker_restores_streams_and_root_handlers
    (st : ProcState) (b ts : String) (outcome : CompOutcome)
    (hfresh : HandlerId.gui ∉ st.rootHandlers) :
    (executeTemoaLogic st b ts outcome).procState.stdout = st.stdout ∧
    (executeTemoaLogic st b ts outcome).procState.stderr = st.stderr ∧
    (executeTemoaLogic st b ts outcome).procState.rootHandlers = st.rootHandlers ∧
    (executeTemoaLogic st b ts outcome).procState.temoaLevel = .info ∧
    (executeTemoaLogic st b ts outcome).procState.pyomoLevel = .warning ∧
    (executeTemoaLogic st b ts outcome).procState.matplotlibLevel = .warning := by
  refine ⟨rfl, rfl, ?_, rfl, rfl, rfl⟩
  simp only [executeTemoaLogic]
  exact removeHandler_addHandler st.rootHandlers .gui hfresh

theorem C1_witness :
    HandlerId.gui ∉ procState0.rootHandlers ∧
    (executeTemoaLogic procState0 "base" "ts" (.ok [])).procState.rootHandlers =
      procState0.rootHandlers :=
  ⟨by decide,
   (C1_worker_restores_streams_and_root_handlers procState0 "base" "ts" (.ok [])
     (by decide)).2.2.1⟩

/-- C2: on every path, the trace of one worker execution contains
exactly one scheduled run-completion hand-off, and it is the last
event of the trace, hence scheduled after every log event of the run
(including the computation's own redirected output) has been enqueued
to the interactive context. -/
theorem C2_exactly_one_result_after_all_logs
    (st : ProcState) (b ts : String) (outcome : CompOutcome) :
    ((executeTemoaLogic st b ts outcome).trace.filter isRunComplete).length = 1 ∧
    (executeTemoaLogic st b ts outcome).trace.getLast? =
      some (RunEvent.scheduleRunComplete (executeTemoaLogic st b ts outcome).success
        (executeTemoaLogic st b ts outcome).finalOutputPath) := by
  cases outcome <;>
    simp [executeTemoaLogic, isRunComplete, List.filter_append, scheduleLog_map_filter,
      getLast?_cons_append_three, getLast?_cons_append_four]

/-- C3 counterexample: a run whose configuration-validation step raises
(TemoaConfig.build_config rejecting the configuration) still has the
timestamp-named output directory created: the mkdir event is in the
trace of this failing run. -/
theorem C3_counterexample :
    (executeTemoaLogic procState0 "base" "ts" (.raiseBuildConfig "boom")).success = false ∧
    RunEvent.mkdirOutput "base/output_files/ts" ∈
      (executeTemoaLogic procState0 "base" "ts" (.raiseBuildConfig "boom")).trace := by
  constructor
  · rfl
  · simp [executeTemoaLogic]

/-- C3 amended: configuration validation happens only after the output
directory is created and the run configuration is written into it; a
run failing at configuration validation is marked failed with no output
path reported, but its trace shows the timestamp-named output directory
was already created (the mkdir event precedes the build-config call). -/
theorem C3_mkdir_precedes_config_validation
    (st : ProcState) (b ts tb : String) :
    (executeTemoaLogic st b ts (.raiseBuildConfig tb)).success = false ∧
    (executeTemoaLogic st b ts (.raiseBuildConfig tb)).finalOutputPath = none ∧
    (executeTemoaLogic st b ts (.raiseBuildConfig tb)).trace =
      [RunEvent.redirectStreams, RunEvent.addGuiHandler,
       RunEvent.mkdirOutput (b ++ "/output_files/" ++ ts),
       RunEvent.scheduleLog ("Output directory: " ++ (b ++ "/output_files/" ++ ts) ++ "\n"),
       RunEvent.writeRunConfig (b ++ "/output_files/" ++ ts ++ "/run_config.toml"),
       RunEvent.scheduleLog "Configuration saved to: run_config.toml\n",
       RunEvent.buildConfigCall (b ++ "/output_files/" ++ ts ++ "/run_config.toml"),
       RunEvent.scheduleLog ("\nERROR:\n" ++ tb ++ "\n"),
       RunEvent.restoreStreams, RunEvent.removeGuiHandler,
       RunEvent.scheduleRunComplete false none] :=
  ⟨rfl, rfl, rfl⟩

/-- Socket operations performed by find_free_port, in call order. -/
inductive SockOp where
  | create (family sockType : String)
  | bind (host : String) (port : Nat)
  | setsockopt (level optname : String) (val : Nat)
  | getsockname
  | close
deriving DecidableEq, Repr

/-- Shallow embedding of find_free_port.  `osAssignedPort` is the port
the operating system assigns when the transient socket is bound to
port 0; the function returns that port together with the sequence of
socket operations it performs: create an AF_INET/SOCK_STREAM socket,
bind it to host "" (the wildcard address) and port 0, set SO_REUSEADDR,
read the bound name back, and close the socket on context-manager exit. -/
def find_free_port (osAssignedPort : Nat) : Nat × List SockOp :=
  (osAssignedPort,
   [.create "AF_INET" "SOCK_STREAM",
    .bind "" 0,
    .setsockopt "SOL_SOCKET" "SO_REUSEADDR" 1,
    .getsockname,
    .close])

/-- Modelled from the spec: the port allocator as §4.1 describes it —
a transient socket bound to port 0 on the loopback interface with
address reuse enabled before the bind.  Used only as the comparison
point for the refinement claim about find_free_port. -/
def find_free_port_spec_ops : List SockOp :=
  [.create "AF_INET" "SOCK_STREAM",
   .setsockopt "SOL_SOCKET" "SO_REUSEADDR" 1,
   .bind "127.0.0.1" 0,
   .getsockname,
   .close]

/-- C9 counterexample: the socket-operation sequence of find_free_port
is not the spec's sequence — the code binds to the wildcard host "",
not the loopback interface, and enables address reuse only after the
bind, not before it. -/
theorem C9_counterexample : (find_free_port 50000).2 ≠ find_free_port_spec_ops := by
  decide

/-- C9 amended: every call of find_free_port opens a transient
AF_INET/SOCK_STREAM socket, binds it to port 0 on the wildcard host ""
(all interfaces), enables SO_REUSEADDR after the bind, reads back the
OS-assigned port, closes the socket, and returns that port number. -/
theorem C9_allocator_operation_sequence (p : Nat) :
    (find_free_port p).1 = p ∧
    (find_free_port p).2 =
      [SockOp.create "AF_INET" "SOCK_STREAM",
       SockOp.bind "" 0,
       SockOp.setsockopt "SOL_SOCKET" "SO_REUSEADDR" 1,
       SockOp.getsockname,
       SockOp.close] :=
  ⟨rfl, rfl⟩

/-- Address string built the way the Python code formats a port stored
in an optional field: "http://127.0.0.1:" followed by the field's
repr ("None" when absent, matching the f-string on a None port). -/
def urlOfPort : Option Nat → String
  | some p => "http://127.0.0.1:" ++ toString p
  | none => "http://127.0.0.1:None"

/-- State of a StaticFileServer instance: whether a TCPServer object is
live, whether a serving thread was started, the stored port, and the
stored root directory. -/
structure StaticFileServer where
  server : Bool
  thread : Bool
  port : Option Nat
  root_dir : Option String
deriving DecidableEq, Repr

/-- A fresh StaticFileServer as __init__ builds it. -/
def StaticFileServer.init : StaticFileServer :=
  { server := false, thread := false, port := none, root_dir := none }

/-- Externally visible effects of StaticFileServer operations. -/
inductive SrvEffect where
  | shutdown
  | serverClose
  | allocPort (p : Nat)
  | createTCPServer (host : String) (port : Nat) (root : String)
  | startThread
deriving DecidableEq, Repr

/-- StaticFileServer.stop: when a server object exists, shut down its
loop and close the server socket (releasing the port), then clear the
field; otherwise do nothing. -/
def StaticFileServer.stop (s : StaticFileServer) :
    StaticFileServer × List SrvEffect :=
  if s.server then ({ s with server := false }, [.shutdown, .serverClose])
  else (s, [])

/-- Shallow embedding of StaticFileServer.start.  `freshPort` is the
port find_free_port hands out at this call.  When a server is live with
the same root, the stored address is returned with no effects; otherwise
a live previous server is stopped first, then the root and a fresh port
are stored, a TCPServer bound to 127.0.0.1 on the new port is created,
and a daemon serving thread is started. -/
def StaticFileServer.start (s : StaticFileServer) (rootDir : String)
    (freshPort : Nat) : String × StaticFileServer × List SrvEffect :=
  if s.server = true ∧ s.root_dir = some rootDir then
    (urlOfPort s.port, s, [])
  else
    let stopped := if s.server then s.stop else (s, [])
    let s1 := stopped.1
    let s2 := { s1 with root_dir := some rootDir, port := some freshPort }
    let s3 := { s2 with server := true, thread := true }
    ("http://127.0.0.1:" ++ toString freshPort, s3,
     stopped.2 ++
       [.allocPort freshPort, .createTCPServer "127.0.0.1" freshPort rootDir,
        .startThread])

/-- C4: starting the static file server while it is running with a
different root first shuts down and closes the previous listener
(releasing its port), and only then allocates a fresh port, creates the
new listener on it, and starts serving; the returned address names the
new port and the resulting state records the new root and port. -/
theorem C4_start_with_different_root_stops_then_rebinds
    (s : StaticFileServer) (r newRoot : String) (fp : Nat)
    (hrun : s.server = true) (hroot : s.root_dir = some r) (hne : r ≠ newRoot) :
    StaticFileServer.start s newRoot fp =
      ("http://127.0.0.1:" ++ toString fp,
       { server := true, thread := true, port := some fp, root_dir := some newRoot },
       [SrvEffect.shutdown, SrvEffect.serverClose, SrvEffect.allocPort fp,
        SrvEffect.createTCPServer "127.0.0.1" fp newRoot, SrvEffect.startThread]) := by
  have hne2 : s.root_dir ≠ some newRoot := by
    rw [hroot]
    intro h2
    exact hne (Option.some.inj h2)
  simp [StaticFileServer.start, StaticFileServer.stop, hrun, hne2]

theorem C4_witness :
    ({ server := true, thread := true, port := some 1234,
       root_dir := some "runA" } : StaticFileServer).server = true ∧
    ("runA" : String) ≠ "runB" ∧
    StaticFileServer.start
      { server := true, thread := true, port := some 1234, root_dir := some "runA" }
      "runB" 4321 =
      ("http://127.0.0.1:" ++ toString 4321,
       { server := true, thread := true, port := some 4321, root_dir := some "runB" },
       [SrvEffect.shutdown, SrvEffect.serverClose, SrvEffect.allocPort 4321,
        SrvEffect.createTCPServer "127.0.0.1" 4321 "runB", SrvEffect.startThread]) :=
  ⟨rfl, by decide,
   C4_start_with_different_root_stops_then_rebinds
     { server := true, thread := true, port := some 1234, root_dir := some "runA" }
     "runA" "runB" 4321 rfl rfl (by decide)⟩

/-- C5: starting the static file server again with the root it is
already serving returns the stored address unchanged, leaves every
state field as it was, and performs no effect: no stop, no port
allocation, no listener creation, no thread start. -/
theorem C5_start_same_root_idempotent
    (s : StaticFileServer) (r : String) (fp : Nat)
    (hrun : s.server = true) (hroot : s.root_dir = some r) :
    StaticFileServer.start s r fp = (urlOfPort s.port, s, []) := by
  simp [StaticFileServer.start, hrun, hroot]

theorem C5_witness :
    ({ server := true, thread := true, port := some 8080,
       root_dir := some "outdir" } : StaticFileServer).server = true ∧
    StaticFileServer.start
      { server := true, thread := true, port := some 8080, root_dir := some "outdir" }
      "outdir" 9999 =
      ("http://127.0.0.1:8080",
       { server := true, thread := true, port := some 8080, root_dir := some "outdir" },
       []) :=
  ⟨rfl,
   C5_start_same_root_idempotent
     { server := true, thread := true, port := some 8080, root_dir := some "outdir" }
     "outdir" 9999 rfl rfl⟩

/-- State of the DatasetteServer singleton: whether a serve task was
created, the stored port, and the running flag. -/
structure DatasetteServer where
  server_task : Bool
  port : Option Nat
  running : Bool
deriving DecidableEq, Repr

/-- A fresh DatasetteServer as __init__ builds it. -/
def DatasetteServer.init : DatasetteServer :=
  { server_task := false, port := none, running := false }

/-- Externally visible effects of DatasetteServer.start. -/
inductive DsEffect where
  | allocPort (p : Nat)
  | constructApp (dbFile : String)
  | createServeTask (host : String) (port : Nat)
  | sleepSettle
deriving DecidableEq, Repr

/-- Shallow embedding of DatasetteServer.start.  When already running,
the address built from the stored port is returned at once with no
effects; otherwise a fresh port is stored, the running flag is set, the
Datasette application is constructed over the data file, a uvicorn
serve task bound to 127.0.0.1 on the fresh port is created, and the
coroutine sleeps half a second before returning the new address. -/
def DatasetteServer.start (s : DatasetteServer) (dbPath : String)
    (freshPort : Nat) : String × DatasetteServer × List DsEffect :=
  if s.running then
    (urlOfPort s.port, s, [])
  else
    ("http://127.0.0.1:" ++ toString freshPort,
     { server_task := true, port := some freshPort, running := true },
     [.allocPort freshPort, .constructApp dbPath,
      .createServeTask "127.0.0.1" freshPort, .sleepSettle])

/-- C8: whenever the embedded query server is already running, start
returns the address built from the stored port immediately, leaves the
state untouched, and performs no effect — no port allocation, no
application construction, no serve task, no settling sleep — whatever
data file is passed. -/
theorem C8_datasette_start_idempotent_when_running
    (s : DatasetteServer) (dbPath : String) (fp : Nat)
    (hrun : s.running = true) :
    DatasetteServer.start s dbPath fp = (urlOfPort s.port, s, []) := by
  simp [DatasetteServer.start, hrun]

theorem C8_witness :
    ({ server_task := true, port := some 5001,
       running := true } : DatasetteServer).running = true ∧
    DatasetteServer.start
      { server_task := true, port := some 5001, running := true }
      "other.sqlite" 7777 =
      ("http://127.0.0.1:5001",
       { server_task := true, port := some 5001, running := true }, []) :=
  ⟨rfl,
   C8_datasette_start_idempotent_when_running
     { server_task := true, port := some 5001, running := true }
     "other.sqlite" 7777 rfl⟩

/-- tomlkit TOMLDocument.get on a document modelled as a key-value
association list. -/
def tomlGet (doc : List (String × String)) (k : String) : Option String :=
  (doc.find? (fun kv => kv.1 = k)).map (fun kv => kv.2)

/-- pathlib Path.name of a path string: the component after the last
slash. -/
def baseName (path : String) : String :=
  (path.splitOn "/").getLastD path

/-- Observable actions of _on_run_complete and _launch_datasette on the
interactive context: widget mutations, log appends, and datasette task
creation. -/
inductive CompleteEvent where
  | stopSpinner
  | enableRunButton
  | appendLog (text : String)
  | setReportUrl (url : String)
  | setCurrentTab (idx : Nat)
  | createDatasetteTask (dbPath : String)
  | setDbViewUrl (url : String)
deriving DecidableEq, Repr

/-- The report-provisioning try block of _on_run_complete: start the
static file server on the output directory, pick an .html artifact
first and an .svg artifact only when no .html exists, and either load
the report URL (and switch to the report tab) or log that no report
was found; an exception raised by the block (`reportExc`) is caught and
logged, leaving the static server as it was at the raise. -/
def reportEventsOf (outDir : String) (htmlFiles svgFiles : List String)
    (staticSrv : StaticFileServer) (freshPort : Nat)
    (reportExc : Option String) : List CompleteEvent × StaticFileServer :=
  match reportExc with
  | some e =>
      ([.appendLog ("\nError starting report server: " ++ e)], staticSrv)
  | none =>
      let res := StaticFileServer.start staticSrv outDir freshPort
      let targetFile : Option String :=
        match htmlFiles with
        | f :: _ => some (baseName f)
        | [] =>
            match svgFiles with
            | f :: _ => some (baseName f)
            | [] => none
      match targetFile with
      | some t =>
          ([.appendLog ("Loading report at: " ++ res.1 ++ "/" ++ t ++ "\n"),
            .setReportUrl (res.1 ++ "/" ++ t),
            .setCurrentTab 1], res.2.1)
      | none =>
          ([.appendLog "No visual report file found in output."], res.2.1)

/-- The dataset-provisioning block of _on_run_complete: prefer a
.sqlite file found in the output directory; only when none exists fall
back to the output_database path of the configuration, and only if that
path exists on disk. -/
def dbEventsOf (sqliteFiles : List String) (tomlDoc : List (String × String))
    (dbExists : String → Bool) : List CompleteEvent :=
  match sqliteFiles with
  | f :: _ =>
      [.appendLog ("\nLaunching Database Inspector for: " ++ baseName f ++ "...\n"),
       .createDatasetteTask f]
  | [] =>
      match tomlGet tomlDoc "output_database" with
      | some q => if dbExists q then [.createDatasetteTask q] else []
      | none => []

/-- Shallow embedding of TemoaGUI._on_run_complete.  The spinner is
stopped and the run button re-enabled first; on a successful run with
an output path, the success banner is logged, the report try block
runs, and the dataset block runs afterwards; otherwise the failure
banner is logged.  `htmlFiles`, `svgFiles`, `sqliteFiles` are the glob
results over the output directory. -/
def onRunCompleteEvents (success : Bool) (outputPath : Option String)
    (htmlFiles svgFiles sqliteFiles : List String)
    (tomlDoc : List (String × String)) (dbExists : String → Bool)
    (staticSrv : StaticFileServer) (freshPort : Nat)
    (reportExc : Option String) : List CompleteEvent × StaticFileServer :=
  match success, outputPath with
  | true, some outDir =>
      let rp := reportEventsOf outDir htmlFiles svgFiles staticSrv freshPort reportExc
      ([CompleteEvent.stopSpinner, CompleteEvent.enableRunButton,
        CompleteEvent.appendLog "\n✅ Optimization Complete.\n"] ++
       rp.1 ++ dbEventsOf sqliteFiles tomlDoc dbExists, rp.2)
  | _, _ =>
      ([CompleteEvent.stopSpinner, CompleteEvent.enableRunButton,
        CompleteEvent.appendLog "\n❌ Optimization Failed. See logs above."],
       staticSrv)

/-- Shallow embedding of TemoaGUI._launch_datasette: start the
datasette server and load its address into the database web view and
the log; an exception from the start (`startExc`) is caught locally and
reported as log text, never propagated. -/
def launchDatasette (ds : DatasetteServer) (dbPath : String) (freshPort : Nat)
    (startExc : Option String) : List CompleteEvent × DatasetteServer :=
  match startExc with
  | some e =>
      ([.appendLog ("\nFailed to start Datasette: " ++ e ++ "\n")], ds)
  | none =>
      let res := DatasetteServer.start ds dbPath freshPort
      ([.setDbViewUrl res.1,
        .appendLog ("Database Inspector ready at " ++ res.1 ++ "\n")], res.2.1)

theorem setReportUrl_not_mem_dbEventsOf (u : String) (sq : List String)
    (doc : List (String × String)) (ex : String → Bool) :
    CompleteEvent.setReportUrl u ∉ dbEventsOf sq doc ex := by
  cases sq with
  | cons f t => simp [dbEventsOf]
  | nil =>
      simp only [dbEventsOf]
      cases tomlGet doc "output_database" with
      | none => simp
      | some q =>
          by_cases hq : ex q = true
          · simp [hq]
          · simp [hq]

theorem createTask_not_mem_reportEventsOf (q outDir : String)
    (html svg : List String) (srv : StaticFileServer) (fp : Nat)
    (exc : Option String) :
    CompleteEvent.createDatasetteTask q ∉ (reportEventsOf outDir html svg srv fp exc).1 := by
  cases exc with
  | some e => simp [reportEventsOf]
  | none =>
      cases html with
      | cons f t => simp [reportEventsOf]
      | nil =>
          cases svg with
          | cons f t => simp [reportEventsOf]
          | nil => simp [reportEventsOf]

/-- C6: on a successful run without a report-server exception, the
report target is the first .html artifact whenever one exists and the
first .svg artifact only when no .html exists (and any loaded report
URL is exactly that target); the datasette task is created for the
first .sqlite artifact of the output directory whenever one exists, and
for the configuration's output_database path only when the output
directory holds no .sqlite file and that path exists on disk. -/
theorem C6_artifact_discovery_preferences
    (outDir : String) (html svg sqlite : List String)
    (doc : List (String × String)) (ex : String → Bool)
    (srv : StaticFileServer) (fp : Nat) :
    (∀ f t, html = f :: t →
      CompleteEvent.setReportUrl
          ((StaticFileServer.start srv outDir fp).1 ++ "/" ++ baseName f) ∈
        (onRunCompleteEvents true (some outDir) html svg sqlite doc ex srv fp none).1) ∧
    (∀ f t, html = [] → svg = f :: t →
      CompleteEvent.setReportUrl
          ((StaticFileServer.start srv outDir fp).1 ++ "/" ++ baseName f) ∈
        (onRunCompleteEvents true (some outDir) html svg sqlite doc ex srv fp none).1) ∧
    (∀ f t u, html = f :: t →
      CompleteEvent.setReportUrl u ∈
        (onRunCompleteEvents true (some outDir) html svg sqlite doc ex srv fp none).1 →
      u = (StaticFileServer.start srv outDir fp).1 ++ "/" ++ baseName f) ∧
    (∀ f t, sqlite = f :: t →
      CompleteEvent.createDatasetteTask f ∈
        (onRunCompleteEvents true (some outDir) html svg sqlite doc ex srv fp none).1) ∧
    (∀ q, sqlite = [] → tomlGet doc "output_database" = some q → ex q = true →
      CompleteEvent.createDatasetteTask q ∈
        (onRunCompleteEvents true (some outDir) html svg sqlite doc ex srv fp none).1) ∧
    (∀ f t q, sqlite = f :: t →
      CompleteEvent.createDatasetteTask q ∈
        (onRunCompleteEvents true (some outDir) html svg sqlite doc ex srv fp none).1 →
      q = f) := by
  refine ⟨?_, ?_, ?_, ?_, ?_, ?_⟩
  · intro f t hf
    subst hf
    simp [onRunCompleteEvents, reportEventsOf]
  · intro f t hh hs
    subst hh
    subst hs
    simp [onRunCompleteEvents, reportEventsOf]
  · intro f t u hf hmem
    subst hf
    simp [onRunCompleteEvents, reportEventsOf,
      setReportUrl_not_mem_dbEventsOf] at hmem
    exact hmem
  · intro f t hf
    subst hf
    simp [onRunCompleteEvents, dbEventsOf]
  · intro q hs hget hex
    subst hs
    simp [onRunCompleteEvents, dbEventsOf, hget, hex]
  · intro f t q hs hmem
    subst hs
    simp [onRunCompleteEvents, dbEventsOf,
      createTask_not_mem_reportEventsOf] at hmem
    exact hmem

theorem C6_witness :
    CompleteEvent.setReportUrl
        ((StaticFileServer.start StaticFileServer.init "out" 8000).1 ++ "/" ++
          baseName "out/rep.html") ∈
      (onRunCompleteEvents true (some "out") ["out/rep.html"] ["out/fig.svg"]
        ["out/data.sqlite"] [("output_database", "cfg.sqlite")]
        (fun _ => true) StaticFileServer.init 8000 none).1 ∧
    CompleteEvent.createDatasetteTask "out/data.sqlite" ∈
      (onRunCompleteEvents true (some "out") ["out/rep.html"] ["out/fig.svg"]
        ["out/data.sqlite"] [("output_database", "cfg.sqlite")]
        (fun _ => true) StaticFileServer.init 8000 none).1 :=
  ⟨(C6_artifact_discovery_preferences "out" ["out/rep.html"] ["out/fig.svg"]
      ["out/data.sqlite"] [("output_database", "cfg.sqlite")]
      (fun _ => true) StaticFileServer.init 8000).1 "out/rep.html" [] rfl,
   (C6_artifact_discovery_preferences "out" ["out/rep.html"] ["out/fig.svg"]
      ["out/data.sqlite"] [("output_database", "cfg.sqlite")]
      (fun _ => true) StaticFileServer.init 8000).2.2.2.1 "out/data.sqlite" [] rfl⟩

/-- C7: on a successful run where the report-provisioning step raises,
the exception is caught and reported as log text, and the
dataset-provisioning step still runs afterwards exactly as in the
non-raising case (sqlite artifact preferred, configuration fallback
otherwise); symmetrically, an exception inside the datasette launcher
is caught locally and reported as log text instead of propagating. -/
theorem C7_server_provisioning_failures_isolated
    (outDir e : String) (html svg sqlite : List String)
    (doc : List (String × String)) (ex : String → Bool)
    (srv : StaticFileServer) (fp : Nat) :
    (CompleteEvent.appendLog ("\nError starting report server: " ++ e) ∈
      (onRunCompleteEvents true (some outDir) html svg sqlite doc ex srv fp (some e)).1) ∧
    (∀ f t, sqlite = f :: t →
      CompleteEvent.createDatasetteTask f ∈
        (onRunCompleteEvents true (some outDir) html svg sqlite doc ex srv fp (some e)).1) ∧
    (∀ q, sqlite = [] → tomlGet doc "output_database" = some q → ex q = true →
      CompleteEvent.createDatasetteTask q ∈
        (onRunCompleteEvents true (some outDir) html svg sqlite doc ex srv fp (some e)).1) ∧
    (∀ ds dbPath fp2 e2,
      launchDatasette ds dbPath fp2 (some e2) =
        ([CompleteEvent.appendLog ("\nFailed to start Datasette: " ++ e2 ++ "\n")], ds)) := by
  refine ⟨?_, ?_, ?_, ?_⟩
  · simp [onRunCompleteEvents, reportEventsOf]
  · intro f t hf
    subst hf
    simp [onRunCompleteEvents, dbEventsOf]
  · intro q hs hget hex
    subst hs
    simp [onRunCompleteEvents, dbEventsOf, hget, hex]
  · intro ds dbPath fp2 e2
    rfl

theorem C7_witness :
    CompleteEvent.appendLog ("\nError starting report server: " ++ "boom") ∈
      (onRunCompleteEvents true (some "out") [] [] ["out/d.sqlite"] []
        (fun _ => false) StaticFileServer.init 8000 (some "boom")).1 ∧
    CompleteEvent.createDatasetteTask "out/d.sqlite" ∈
      (onRunCompleteEvents true (some "out") [] [] ["out/d.sqlite"] []
        (fun _ => false) StaticFileServer.init 8000 (some "boom")).1 ∧
    launchDatasette DatasetteServer.init "db.sqlite" 5000 (some "err") =
      ([CompleteEvent.appendLog ("\nFailed to start Datasette: " ++ "err" ++ "\n")],
       DatasetteServer.init) :=
  ⟨(C7_server_provisioning_failures_isolated "out" "boom" [] [] ["out/d.sqlite"] []
      (fun _ => false) StaticFileServer.init 8000).1,
   (C7_server_provisioning_failures_isolated "out" "boom" [] [] ["out/d.sqlite"] []
      (fun _ => false) StaticFileServer.init 8000).2.1 "out/d.sqlite" [] rfl,
   (C7_server_provisioning_failures_isolated "out" "boom" [] [] ["out/d.sqlite"] []
      (fun _ => false) StaticFileServer.init 8000).2.2.2
     DatasetteServer.init "db.sqlite" 5000 "err"⟩

/-- tomlkit item assignment doc[k] = v on a document modelled as a
key-value association list: replace the value when the key is present,
append the pair otherwise. -/
def tomlSet (doc : List (String × String)) (k v : String) :
    List (String × String) :=
  if (doc.find? (fun kv => kv.1 = k)).isSome then
    doc.map (fun kv => if kv.1 = k then (k, v) else kv)
  else doc ++ [(k, v)]

/-- The widget and document state of the GUI that run_model reads and
mutates: the parsed configuration document (None until a file is
loaded; an empty document is falsy in Python just like None), the run
button, the spinner, the log view, the selected tab, and the three
selection widgets' current values. -/
structure GuiState where
  toml_doc : Option (List (String × String))
  btn_run_enabled : Bool
  spinner_running : Bool
  log_view : String
  current_tab : Nat
  mode_value : String
  solver_value : String
  time_value : String
deriving DecidableEq, Repr

/-- Shallow embedding of TemoaGUI.run_model.  `now` is the formatted
current time.  When the parsed document is absent (or empty, the other
falsy case of "if not self.toml_doc"), the handler returns at once
with no state change and no worker dispatch; otherwise it disables the
run button, starts the spinner, resets the log view to the run header,
switches to the log tab, writes the three selection values into the
document, and dispatches the worker (`true` in the result). -/
def run_model (st : GuiState) (now : String) : GuiState × Bool :=
  match st.toml_doc with
  | none => (st, false)
  | some doc =>
      if doc.isEmpty then (st, false)
      else
        let doc1 := tomlSet (tomlSet (tomlSet doc "scenario_mode" st.mode_value)
          "solver_name" st.solver_value) "time_sequencing" st.time_value
        ({ st with
            toml_doc := some doc1
            btn_run_enabled := false
            spinner_running := true
            log_view := "--- Starting Run: " ++ now ++ " ---\n"
            current_tab := 0 }, true)

/-- C10: invoking the run trigger while no configuration document is
loaded is a complete no-op — the GUI state (run button enablement,
spinner, log view, tab, document) is returned unchanged and no worker
computation is dispatched. -/
theorem C10_run_model_noop_without_config (st : GuiState) (now : String)
    (h : st.toml_doc = none) : run_model st now = (st, false) := by
  simp [run_model, h]

theorem C10_witness :
    ({ toml_doc := none, btn_run_enabled := true, spinner_running := false,
       log_view := "", current_tab := 0, mode_value := "perfect_foresight",
       solver_value := "cbc", time_value := "manual" } : GuiState).toml_doc = none ∧
    run_model
      { toml_doc := none, btn_run_enabled := true, spinner_running := false,
        log_view := "", current_tab := 0, mode_value := "perfect_foresight",
        solver_value := "cbc", time_value := "manual" } "12:00:00" =
      ({ toml_doc := none, btn_run_enabled := true, spinner_running := false,
         log_view := "", current_tab := 0, mode_value := "perfect_foresight",
         solver_value := "cbc", time_value := "manual" }, false) :=
  ⟨rfl,
   C10_run_model_noop_without_config
     { toml_doc := none, btn_run_enabled := true, spinner_running := false,
       log_view := "", current_tab := 0, mode_value := "perfect_foresight",
       solver_value := "cbc", time_value := "manual" } "12:00:00" rfl⟩
